import Mathlib

/-!
Verification of the `data_warehouse` package (`src/data_warehouse/__init__.py`).

The development shallowly embeds the path codec, the metadata envelope, the
save/load/list workers and the Athena query runner of the `DataWarehouse`
class.  Python strings are modelled as Lean `String`s; the handful of string
primitives the source uses (`str.split`, `"/".join`, `str.startswith`,
slicing, `str.find`, `os.path.splitext`, `os.path.basename`) are re-implemented
below as structurally recursive functions over `List Char`, matching CPython
semantics.  Effects are made explicit: the S3 backend becomes a function
parameter, wall-clock readings and random draws become parameters of a
context record, exceptions become an `Except` result, and the writes a save
issues are collected in order in a trace.
-/

namespace DataWarehouse

/-- The characters of a string. -/
def chars (s : String) : List Char := s.data

/-- Build a string from characters. -/
def ofChars (cs : List Char) : String := ⟨cs⟩

/-- CPython `str.split(sep)` for a one-character separator: splits on every
occurrence and keeps empty pieces. -/
def splitOnChar (c : Char) : List Char → List (List Char)
  | [] => [[]]
  | x :: rest =>
    let r := splitOnChar c rest
    if x = c then [] :: r
    else
      match r with
      | [] => [[x]]
      | h :: t => (x :: h) :: t

/-- Python `s.split("/")`-style splitting (single-character separator). -/
def pySplit (c : Char) (s : String) : List String :=
  (splitOnChar c (chars s)).map ofChars

/-- Python `sep.join(pieces)`. -/
def pyJoin (sep : String) : List String → String
  | [] => ""
  | [x] => x
  | x :: y :: rest => x ++ sep ++ pyJoin sep (y :: rest)

/-- Python `s.startswith(pre)`. -/
def pyStartsWith (s pre : String) : Bool :=
  (chars pre).isPrefixOf (chars s)

/-- Python `s[-3:]`: the last three characters (the whole string when shorter). -/
def pyLast3 (s : String) : String :=
  ofChars ((chars s).drop ((chars s).length - 3))

/-- Python `s[:-3]`: everything except the last three characters. -/
def pyDropLast3 (s : String) : String :=
  ofChars ((chars s).take ((chars s).length - 3))

/-- Whether `needle` occurs in `hay`, i.e. Python `hay.find(needle) != -1`. -/
def infixCheck (needle : List Char) : List Char → Bool
  | [] => needle.isEmpty
  | h :: t => needle.isPrefixOf (h :: t) || infixCheck needle t

/-- Python `s.find(sub) != -1`. -/
def pyContains (s sub : String) : Bool :=
  infixCheck (chars sub) (chars s)

/-- Index of the last occurrence of `c`, i.e. Python `str.rfind` restricted to
a hit/miss answer with position. -/
def lastIdxOf (c : Char) : List Char → Option Nat
  | [] => none
  | x :: rest =>
    match lastIdxOf c rest with
    | some i => some (i + 1)
    | none => if x = c then some 0 else none

/-- CPython `os.path.splitext`: splits at the last dot of the final path
component, except that leading dots of that component never start an
extension. -/
def pySplitext (p : String) : String × String :=
  let cs := chars p
  let dotIdx := lastIdxOf '.' cs
  let sepIdx := lastIdxOf '/' cs
  match dotIdx with
  | none => (p, "")
  | some d =>
    let sepOk := match sepIdx with
      | none => true
      | some s => s < d
    if sepOk then
      let start := match sepIdx with
        | none => 0
        | some s => s + 1
      if ((cs.drop start).take (d - start)).all (· = '.') then (p, "")
      else (ofChars (cs.take d), ofChars (cs.drop d))
    else (p, "")

/-- CPython `os.path.basename`: the substring after the last `/`. -/
def pyBasename (s : String) : String :=
  (pySplit '/' s).getLastD ""

example : pySplit '/' "a/b/" = ["a", "b", ""] := by decide
example : pySplit '/' "" = [""] := by decide
example : pyJoin "/" ["a", "b", ""] = "a/b/" := by decide
example : pySplitext "p.txt" = ("p", ".txt") := by decide
example : pySplitext ".csv" = (".csv", "") := by decide
example : pySplitext "a.b/c" = ("a.b/c", "") := by decide
example : pySplitext "dir/file.csv" = ("dir/file", ".csv") := by decide
example : pySplitext "..a.b" = ("..a", ".b") := by decide
example : pyLast3 "x.gz" = ".gz" ∧ pyDropLast3 "x.gz" = "x" := by decide
example : pyLast3 "ab" = "ab" := by decide
example : pyContains "a/1" "a/" = true ∧ pyContains "b/1" "a/" = false := by decide
example : pyBasename "a/b/c.txt" = "c.txt" := by decide

/-! ## Data model -/

/-- The Python exceptions the embedded code can raise. -/
inductive PyErr where
  | valueError (msg : String)
  | attributeError (msg : String)
  | indexError (msg : String)
  | assertionError
  deriving DecidableEq, Repr

/-- Python values as they flow through `save`: strings, integers, dicts and
lists.  (Other payload types the class accepts — bytes, floats — behave like
`str`/`int` for every code path modelled here.) -/
inductive PyVal where
  | str (s : String)
  | int (n : Int)
  | dict (entries : List (String × PyVal))
  | list (items : List PyVal)

/-- Whether a value is a Python `dict`. -/
def PyVal.isDict : PyVal → Bool
  | .dict _ => true
  | _ => false

/-- Whether a value is a Python `list` (`isinstance(value, list)`). -/
def PyVal.isList : PyVal → Bool
  | .list _ => true
  | _ => false

/-- A metadata record: a Python dict in insertion order. -/
abbrev MetaDict := List (String × PyVal)

/-- Python `d[k] = v` on a dict modelled as an insertion-ordered association
list with unique keys: overwrite in place when the key exists, append
otherwise. -/
def dictSet (d : MetaDict) (k : String) (v : PyVal) : MetaDict :=
  if d.any (fun p => p.1 = k) then d.map (fun p => if p.1 = k then (k, v) else p)
  else d ++ [(k, v)]

/-- Python `d[k]` / `d.get(k)`: the first entry with the given key. -/
def pyLookup (k : String) : MetaDict → Option PyVal
  | [] => none
  | (k', v) :: rest => if k' = k then some v else pyLookup k rest

/-- The impure inputs of a `DataWarehouse` instance and of one call:
configured names, the two wall-clock readings (`datetime.now()` rendered as a
date and as a full timestamp), `time.time_ns()`, and the stream of random
draws (each already reduced to an index below 62 as `int(random.random()*62)`
is). -/
structure Ctx where
  wh : String
  self_table_name : String
  today_ymd : String
  now_str : String
  time_ns : Nat
  rand : Nat → Fin 62

/-! ## Path codec (`_get_table_name`, `_get_warehouse_full_path`,
`_valid_full_path`, `_parse_full_path`) -/

/-- `_get_table_name`: the explicit argument when truthy (non-empty), else the
handler's configured table name. -/
def _get_table_name (self_table_name table_name : String) : String :=
  if table_name ≠ "" then table_name else self_table_name

/-- `_get_warehouse_full_path`.  Mirrors the Python exactly: the two
recognised store kinds return the assembled key, and any other store kind
falls off the end of the function — Python silently returns `None`, modelled
as `none`. -/
def _get_warehouse_full_path (self_table_name store_kind table_name user_path : String)
    (table_kind : String) (ymd : String) (is_meta : Bool) : Option String :=
  if store_kind = "raw" then
    some ("raw/" ++ (table_kind ++ "/" ++ (if is_meta then "meta" else "value") ++ "/"
      ++ _get_table_name self_table_name table_name
      ++ (if ymd ≠ "" then "/" ++ ymd else "") ++ "/" ++ user_path
      ++ (if (pySplitext user_path).2 ≠ ".parquet" then ".gz" else "")))
  else if store_kind = "discovery" then
    some ("discovery/" ++ (table_kind ++ "/" ++ (if is_meta then "meta" else "value") ++ "/"
      ++ _get_table_name self_table_name table_name
      ++ (if ymd ≠ "" then "/" ++ ymd else "") ++ "/" ++ user_path
      ++ (if (pySplitext user_path).2 ≠ ".parquet" then ".gz" else "")))
  else none

/-- Rendering of an optional path where Python would interpolate the value
into an f-string: `None` prints as `"None"`.  Every reachable use applies it
to a `some`. -/
def optRender : Option String → String
  | some s => s
  | none => "None"

/-- `_valid_full_path`: raises `ValueError` unless the key starts with
`default/{warehouse_name}/`. -/
def _valid_full_path (wh full_path : String) : Except PyErr Unit :=
  if pyStartsWith full_path ("default/" ++ wh ++ "/") then .ok ()
  else .error (.valueError ("invalid full_path " ++ full_path))

/-- The record `_parse_full_path` returns (a `types.SimpleNamespace` in the
source). -/
structure ParsedPath where
  full_path : String
  ext : String
  store_kind : String
  meta_or_value : String
  table_name : String
  gz : Bool
  ymd : String
  deriving DecidableEq, Repr

/-- `_parse_full_path`: strips a trailing `.gz`, validates the warehouse root,
asserts the first two segments, then reads segments 3–6 positionally
(`splited[3]` through `splited[6]`; out-of-range access is Python
`IndexError`). -/
def _parse_full_path (wh full_path₀ : String) : Except PyErr ParsedPath :=
  let is_gz := pyLast3 full_path₀ = ".gz"
  let full_path := if is_gz then pyDropLast3 full_path₀ else full_path₀
  match _valid_full_path wh full_path with
  | .error e => .error e
  | .ok _ =>
    let basename := pyBasename full_path
    let ext := (pySplitext basename).2
    let splited := pySplit '/' full_path
    if splited.getD 0 "" = "default" then
      if splited.getD 1 "" = wh then
        match splited.get? 3, splited.get? 4, splited.get? 5, splited.get? 6 with
        | some sk, some mv, some tn, some ymd =>
          .ok ⟨full_path, ext, sk, mv, tn, is_gz, ymd⟩
        | _, _, _, _ => .error (.indexError "list index out of range")
      else .error .assertionError
    else .error .assertionError

example :
    _get_warehouse_full_path "" "raw" "t" "p.txt" "general" "2020-08-30" false
      = some "raw/general/value/t/2020-08-30/p.txt.gz" := by decide

example :
    _get_warehouse_full_path "" "discovery" "t" "p.parquet" "general" "" true
      = some "discovery/general/meta/t/p.parquet" := by decide

example : _get_warehouse_full_path "" "bogus" "t" "p" "general" "" false = none := by decide

example :
    _parse_full_path "warehouse" "default/warehouse/raw/general/value/t/2020-08-30/p.txt.gz"
      = .ok ⟨"default/warehouse/raw/general/value/t/2020-08-30/p.txt", ".txt",
             "general", "value", "t", true, "2020-08-30"⟩ := rfl

/-! ## User paths and randomness (`_get_random_string`, `_get_valid_user_path`) -/

/-- The alphabet `_get_random_string` draws from (62 characters). -/
def random_box : List Char :=
  chars "abcdefghijklmnopqrstuvwxyzABCDEFGHIJKLMNOPQRSTUVWXYZ1234567890"

/-- `_get_random_string`: one character per loop iteration, the `i`-th random
draw picking index `rand i` of the alphabet. -/
def _get_random_string (rand : Nat → Fin 62) (length : Nat) : String :=
  ofChars ((List.range length).map (fun i => random_box.getD (rand i).val 'a'))

/-- `_get_valid_user_path`: empty paths and the bare `"."` raise `ValueError`;
a path starting with `.` gets `str(time.time_ns()) + "_" + random5` glued in
front; anything else passes through unchanged. -/
def _get_valid_user_path (time_ns : Nat) (rand : Nat → Fin 62) (user_path : String) :
    Except PyErr String :=
  if (chars user_path).length = 0 then
    .error (.valueError ("invalid user_path " ++ user_path))
  else if (chars user_path).headD ' ' = '.' then
    if (chars user_path).length = 1 then
      .error (.valueError ("invalid user_path " ++ user_path))
    else
      .ok (toString time_ns ++ "_" ++ _get_random_string rand 5 ++ user_path)
  else .ok user_path

/-- A fixed stream of random draws used by the concrete examples. -/
def rand0 : Nat → Fin 62 := fun _ => ⟨0, by decide⟩

example : _get_random_string rand0 5 = "aaaaa" := by decide
example : _get_valid_user_path 42 rand0 ".csv" = .ok "42_aaaaa.csv" := rfl
example : _get_valid_user_path 42 rand0 "p.txt" = .ok "p.txt" := rfl
example : _get_valid_user_path 42 rand0 "." = .error (.valueError "invalid user_path .") := rfl

/-! ## CSV transcoding (`_json_to_csv`) -/

/-- `str(cell)` as `csv.writer` renders a cell.  Strings and numbers are
rendered exactly; the rendering of nested containers (Python `repr`) is
abbreviated, which no modelled property depends on — the spec places the CSV
text encoding itself out of scope. -/
def cellStr : PyVal → String
  | .str s => s
  | .int n => toString n
  | .dict _ => "<dict>"
  | .list _ => "<list>"

/-- Quoting rule of `csv.writer` (default dialect): quote a field containing
a delimiter, a quote or a line break, doubling embedded quotes. -/
def csvField (s : String) : String :=
  if (chars s).any (fun c => c = ',' ∨ c = '"' ∨ c = '\r' ∨ c = '\n') then
    "\"" ++ ofChars ((chars s).flatMap (fun c => if c = '"' then ['"', '"'] else [c])) ++ "\""
  else s

/-- One CSV line with the default `\r\n` terminator. -/
def csvLine (cells : List String) : String :=
  pyJoin "," (cells.map csvField) ++ "\r\n"

/-- `writer.writerows` into a `StringIO`. -/
def csvRender (rows : List (List String)) : String :=
  String.join (rows.map csvLine)

/-- Extracting `row.values()` from every row in order; the first row that is
not a dict raises `AttributeError` (no element-type check precedes it). -/
def rowsValues : List PyVal → Except PyErr (List (List PyVal))
  | [] => .ok []
  | .dict es :: rest =>
    Except.bind (rowsValues rest) (fun rs => .ok (es.map (fun p => p.2) :: rs))
  | _ :: _ => .error (.attributeError "object has no attribute values")

/-- `_json_to_csv`: rejects non-lists with `ValueError`; an empty list yields
`""`; otherwise the header row is `json_data[0].keys()` (crashing with
`AttributeError` when the first element is not a dict) followed by every
row's `values()`. -/
def _json_to_csv (json_data : PyVal) : Except PyErr String :=
  match json_data with
  | .list items =>
    match items with
    | [] => .ok ""
    | first :: _ =>
      match first with
      | .dict entries =>
        Except.bind (rowsValues items) (fun valueRows =>
          .ok (csvRender ((entries.map (fun p => p.1)) :: valueRows.map (fun r => r.map cellStr))))
      | _ => .error (.attributeError "object has no attribute keys")
  | _ => .error (.valueError "json data type must be list.")

example :
    _json_to_csv (.list [.dict [("a", .int 1), ("b", .int 2)],
                         .dict [("a", .int 3), ("b", .int 4)]])
      = .ok "a,b\r\n1,2\r\n3,4\r\n" := rfl

example : _json_to_csv (.list [.int 7]) = .error (.attributeError "object has no attribute keys") := rfl

/-! ## Metadata envelope (`_upgrade_meta`) -/

/-- `_upgrade_meta`: copies the caller metadata, stamps `full_path` (the
*value* key rendered under `default/{warehouse_name}/`), `stored_time` and
`ymd`, rejects unknown store kinds, and re-keys everything with the
`{store_kind}_` namespace after seeding `default_table_name`. -/
def _upgrade_meta (ctx : Ctx) (store_kind : String) (meta : MetaDict)
    (warehouse_full_path : String) (table_name : String) : Except PyErr MetaDict :=
  if store_kind = "raw" ∨ store_kind = "discovery" then
    .ok (("default_table_name", .str (_get_table_name ctx.self_table_name table_name))
      :: (dictSet (dictSet (dictSet meta "full_path"
            (.str ("default/" ++ ctx.wh ++ "/" ++ warehouse_full_path)))
            "stored_time" (.str ctx.now_str))
            "ymd" (.str ctx.today_ymd)).map
          (fun p => (store_kind ++ "_" ++ p.1, p.2)))
  else .error (.valueError ("invalid store_kind " ++ store_kind))

/-! ## Save worker (`_save_worker`) -/

/-- What one `self._es_handler.save(...)` call writes: either the (possibly
transcoded) value payload or the upgraded metadata record. -/
inductive StoredContent where
  | payload (v : PyVal)
  | metaRec (m : MetaDict)

/-- One backend write: key, content and the compression option dict (`some
"gz"` for `{"compress_type": "gz"}`, `none` for `{}`). -/
structure WriteOp where
  path : String
  content : StoredContent
  option : Option String

/-- Classification of a write for ordering statements. -/
inductive WKind where
  | metaW
  | valueW
  deriving DecidableEq, Repr

/-- The kind of a write. -/
def WriteOp.kind (w : WriteOp) : WKind :=
  match w.content with
  | .metaRec _ => .metaW
  | .payload _ => .valueW

/-- The observable outcome of a successful save: the backend writes in issue
order, and the confirmation returned for the value write. -/
structure SaveEffect where
  writes : List WriteOp
  result : String

/-- Sequencing of fallible steps (`Except.bind` on a success). -/
theorem exceptBindOk {α β : Type} (a : α) (f : α → Except PyErr β) :
    Except.bind (Except.ok a) f = f a := rfl

/-- Sequencing of fallible steps (`Except.bind` on an error). -/
theorem exceptBindErr {α β : Type} (e : PyErr) (f : α → Except PyErr β) :
    Except.bind (Except.error e : Except PyErr α) f = Except.error e := rfl

/-- The transcoding step of `_save_worker`:
`if ext == ".csv" and isinstance(value, list): value = self._json_to_csv(value)`. -/
def transcodeStep (ext : String) (value : PyVal) : Except PyErr PyVal :=
  match value with
  | .list items =>
    if ext = ".csv" then
      Except.bind (_json_to_csv (.list items)) (fun s => .ok (.str s))
    else .ok (.list items)
  | v => .ok v

/-- The resolved date partition of `_save_worker`: an explicit `ymd` argument
wins, else today's date when `use_ymd`, else no partition. -/
def resolvedYmd (ctx : Ctx) (use_ymd : Bool) (user_ymd : String) : String :=
  if user_ymd ≠ "" then user_ymd else if use_ymd then ctx.today_ymd else ""

/-- `_save_worker`: table-name and partition resolution, user-path
normalization, conditional CSV transcoding, key construction for both
channels, metadata upgrade, then the two backend writes — meta first for
`raw`, value first for `discovery`.  Errors abort before any write reaches
the trace. -/
def _save_worker (ctx : Ctx) (store_kind table_kind user_path₀ : String) (value₀ : PyVal)
    (meta : MetaDict) (use_ymd : Bool) (table_name user_ymd : String) :
    Except PyErr SaveEffect :=
  Except.bind (_get_valid_user_path ctx.time_ns ctx.rand user_path₀) (fun user_path =>
    Except.bind (transcodeStep (pySplitext user_path).2 value₀) (fun value =>
      Except.bind (_upgrade_meta ctx store_kind meta
          (optRender (_get_warehouse_full_path ctx.self_table_name store_kind
            (_get_table_name ctx.self_table_name table_name) user_path table_kind
            (resolvedYmd ctx use_ymd user_ymd) false))
          (_get_table_name ctx.self_table_name table_name)) (fun newMeta =>
        if store_kind = "raw" then
          .ok ⟨[⟨optRender (_get_warehouse_full_path ctx.self_table_name store_kind
                  (_get_table_name ctx.self_table_name table_name) user_path table_kind
                  (resolvedYmd ctx use_ymd user_ymd) true), .metaRec newMeta,
                if (pySplitext user_path).2 ≠ ".parquet" then some "gz" else none⟩,
                ⟨optRender (_get_warehouse_full_path ctx.self_table_name store_kind
                  (_get_table_name ctx.self_table_name table_name) user_path table_kind
                  (resolvedYmd ctx use_ymd user_ymd) false), .payload value,
                if (pySplitext user_path).2 ≠ ".parquet" then some "gz" else none⟩],
               optRender (_get_warehouse_full_path ctx.self_table_name store_kind
                 (_get_table_name ctx.self_table_name table_name) user_path table_kind
                 (resolvedYmd ctx use_ymd user_ymd) false)⟩
        else if store_kind = "discovery" then
          .ok ⟨[⟨optRender (_get_warehouse_full_path ctx.self_table_name store_kind
                  (_get_table_name ctx.self_table_name table_name) user_path table_kind
                  (resolvedYmd ctx use_ymd user_ymd) false), .payload value,
                if (pySplitext user_path).2 ≠ ".parquet" then some "gz" else none⟩,
                ⟨optRender (_get_warehouse_full_path ctx.self_table_name store_kind
                  (_get_table_name ctx.self_table_name table_name) user_path table_kind
                  (resolvedYmd ctx use_ymd user_ymd) true), .metaRec newMeta,
                if (pySplitext user_path).2 ≠ ".parquet" then some "gz" else none⟩],
               optRender (_get_warehouse_full_path ctx.self_table_name store_kind
                 (_get_table_name ctx.self_table_name table_name) user_path table_kind
                 (resolvedYmd ctx use_ymd user_ymd) false)⟩
        else .error (.valueError ("invalid store kind " ++ store_kind)))))

/-- A concrete instance context for the closed examples. -/
def ctx0 : Ctx :=
  ⟨"warehouse", "tbl", "2020-08-30", "2020-08-30 12:00:00.000000", 42, rand0⟩

/-- The effect of a concrete raw save in `ctx0`. -/
def effRaw : SaveEffect :=
  ⟨[⟨"raw/general/meta/tbl/2020-08-30/p.txt.gz",
     .metaRec [("default_table_name", .str "tbl"),
               ("raw_full_path", .str "default/warehouse/raw/general/value/tbl/2020-08-30/p.txt.gz"),
               ("raw_stored_time", .str "2020-08-30 12:00:00.000000"),
               ("raw_ymd", .str "2020-08-30")], some "gz"⟩,
    ⟨"raw/general/value/tbl/2020-08-30/p.txt.gz", .payload (.str "hello"), some "gz"⟩],
   "raw/general/value/tbl/2020-08-30/p.txt.gz"⟩

example :
    _save_worker ctx0 "raw" "general" "p.txt" (.str "hello") [] true "" "" = .ok effRaw := rfl

/-! ## Full-path loaders (`load_with_full_path`, `_get_meta_path_with_full_path`,
`load_meta_with_full_path`) -/

/-- Python `l[i] = x` on a list: `IndexError` when `i` is out of range. -/
def pyListSet (l : List String) (i : Nat) (x : String) : Except PyErr (List String) :=
  if i < l.length then .ok (l.set i x)
  else .error (.indexError "list assignment index out of range")

/-- `load_with_full_path`: a single `self._es_handler._load_file(full_path)`
call — no validation of any kind.  The result pairs the list of keys fetched
from the backend with the decoded payload. -/
def load_with_full_path (es_load : String → PyVal) (full_path : String) :
    List String × PyVal :=
  ([full_path], es_load full_path)

/-- `_get_meta_path_with_full_path`: split on `/`, overwrite the fifth
segment (`splited[4]`) with `"meta"`, and re-join. -/
def _get_meta_path_with_full_path (full_path : String) : Except PyErr String :=
  match pyListSet (pySplit '/' full_path) 4 "meta" with
  | .error e => .error e
  | .ok splited => .ok (pyJoin "/" splited)

/-- `load_meta_with_full_path`: rewrite the channel segment, then fetch. -/
def load_meta_with_full_path (es_load : String → PyVal) (full_path : String) :
    Except PyErr (List String × PyVal) :=
  match _get_meta_path_with_full_path full_path with
  | .error e => .error e
  | .ok p => .ok ([p], es_load p)

example :
    _get_meta_path_with_full_path "default/warehouse/raw/general/value/t/p.gz"
      = .ok "default/warehouse/raw/general/meta/t/p.gz" := rfl

example :
    _get_meta_path_with_full_path "a/b/c"
      = .error (.indexError "list assignment index out of range") := rfl

/-! ## List worker (`_list_worker`) -/

/-- A backend listing entry: the key plus whatever attributes the backend
reports for it. -/
structure S3Object where
  key : String
  attrs : List (String × String)
  deriving DecidableEq, Repr

/-- What `_list_worker` can return: plain listing entries, loaded
`{key, value}` pairs, or directory names. -/
inductive ListResult where
  | objs (l : List S3Object)
  | loaded (l : List (String × PyVal))
  | dirs (l : List String)

/-- The filter loop of `_list_worker`: each object is appended once per
`includes` entry found in its key (Python appends inside the inner loop, so a
key matching two substrings is kept twice). -/
def includesFilter (includes : List String) (objects : List S3Object) : List S3Object :=
  objects.flatMap (fun obj => (includes.filter (fun inc => pyContains obj.key inc)).map (fun _ => obj))

/-- The `load == True` inner loop of `_list_worker`: fetches each entry as
its value or its companion meta object and collects `{key, value}` pairs. -/
def listLoadAll (es_load : String → PyVal) (is_meta : Bool) :
    List S3Object → Except PyErr (List (String × PyVal))
  | [] => .ok []
  | obj :: rest =>
    let valueE : Except PyErr PyVal :=
      if is_meta then
        match load_meta_with_full_path es_load obj.key with
        | .error e => .error e
        | .ok (_, v) => .ok v
      else .ok (load_with_full_path es_load obj.key).2
    match valueE with
    | .error e => .error e
    | .ok value =>
      match listLoadAll es_load is_meta rest with
      | .error e => .error e
      | .ok tail => .ok ((obj.key, value) :: tail)

/-- `_list_worker`.  The listing prefix always uses the `value` channel; the
`includes` filter is computed — and then discarded, because the
`not is_direoctry` branch re-lists the prefix from the backend before
deciding what to return.  `es_list` receives `(full_path, warehouse_name)`
exactly as `list_objects` does. -/
def _list_worker (es_list : String → String → List S3Object) (es_load : String → PyVal)
    (es_listdir : String → List String) (ctx : Ctx)
    (store_kind table_kind table_name user_dir ymd : String)
    (load is_meta : Bool) (includes : List String) (is_direoctry : Bool) :
    Except PyErr ListResult :=
  let table_name := _get_table_name ctx.self_table_name table_name
  let user_dir_with_slash := if user_dir ≠ "" then "/" ++ user_dir else ""
  let ymd_with_slash := if ymd ≠ "" then "/" ++ ymd else ""
  let full_path := store_kind ++ "/" ++ table_kind ++ "/value/" ++ table_name
    ++ user_dir_with_slash ++ ymd_with_slash
  let objects := es_list full_path ctx.wh
  let _objects := if includes.length > 0 then includesFilter includes objects else objects
  if !is_direoctry then
    let objects := es_list full_path ctx.wh
    if load then
      match listLoadAll es_load is_meta objects with
      | .error e => .error e
      | .ok pairs => .ok (.loaded pairs)
    else .ok (.objs objects)
  else .ok (.dirs (es_listdir full_path))

/-- A backend whose listing holds the three keys of the spec's listing-filter
example. -/
def esListAB : String → String → List S3Object :=
  fun _ _ => [⟨"a/1", []⟩, ⟨"a/2", []⟩, ⟨"b/1", []⟩]

example :
    _list_worker esListAB (fun _ => .str "v") (fun _ => []) ctx0
      "raw" "general" "t" "" "" false false ["a/"] false
      = .ok (.objs [⟨"a/1", []⟩, ⟨"a/2", []⟩, ⟨"b/1", []⟩]) := rfl

example :
    includesFilter ["a/"] [⟨"a/1", []⟩, ⟨"a/2", []⟩, ⟨"b/1", []⟩]
      = [⟨"a/1", []⟩, ⟨"a/2", []⟩] := rfl

/-! ## Athena query runner (`load_with_athena_query`) -/

/-- A query execution status as reported by `get_query_execution`. -/
inductive QStatus where
  | running
  | queued
  | succeeded
  | failed
  | cancelled
  deriving DecidableEq, Repr

/-- One result page of `get_query_results`: the rows (each already projected
to its `VarCharValue`s, as `get_var_char_values` does) and the optional
continuation token. -/
structure ResultPage where
  rows : List (List String)
  nextToken : Option String

/-- The query-service collaborator: the status reported at the `i`-th poll,
the page returned for a request without a token, and the page returned for a
request carrying a given token. -/
structure AthenaClient where
  statusAt : Nat → QStatus
  firstPage : ResultPage
  pageAt : String → ResultPage

/-- An element of the result list: a raw page (raw mode) or one parsed row
(select mode), the row being `dict(zip(header, values))` in insertion
order. -/
inductive AthenaItem where
  | page (p : ResultPage)
  | row (r : List (String × String))

/-- The result list of `load_with_athena_query`. -/
abbrev AthenaResult := List AthenaItem

/-- `get_format_type`: any occurrence of `SELECT` or `select` in the query
text selects row-parsing mode. -/
def get_format_type (query : String) : String :=
  if pyContains query "SELECT" ∨ pyContains query "select" then "select" else "raw"

/-- The polling loop: `while True` querying the status, raising on
`CANCELLED`/`FAILED`, breaking on `SUCCEEDED`, looping otherwise.  The loop
is unbounded in the source; `fuel` bounds the embedding, `none` meaning the
loop was still spinning after `fuel` polls. -/
def pollStatus (svc : AthenaClient) (query : String) : Nat → Nat → Option (Except PyErr Unit)
  | 0, _ => none
  | fuel + 1, i =>
    match svc.statusAt i with
    | .cancelled => some (.error (.valueError ("[" ++ query ++ "] is cancelled.")))
    | .failed => some (.error (.valueError ("[" ++ query ++ "] is failed.")))
    | .succeeded => some (.ok ())
    | _ => pollStatus svc query fuel (i + 1)

/-- `parse(header, rows)`: zips each row against the single header. -/
def parseRows (header : List String) (rows : List (List String)) : AthenaResult :=
  rows.map (fun r => .row (header.zip r))

/-- The `for index in range(request_limit)` pagination loop.  Raw mode
returns the first page verbatim; select mode takes the first page's first
row as the header (`header, *rows = ...`, `ValueError` on an empty page),
extends the accumulated rows, and then continues only when the service
returned a token not seen before — the rows of the page carrying a repeated
token have already been appended when the loop breaks. -/
def athenaFetchLoop (svc : AthenaClient) (format_type : String) :
    Nat → Nat → List String → List String → AthenaResult → Except PyErr AthenaResult
  | 0, _, _, _, result => .ok result
  | fuel + 1, index, next_tokens, header, result =>
    let page := match next_tokens.getLast? with
      | none => svc.firstPage
      | some t => svc.pageAt t
    if format_type = "raw" then .ok (result ++ [.page page])
    else if format_type = "select" then
      let headerRowsE : Except PyErr (List String × List (List String)) :=
        if index = 0 then
          match page.rows with
          | [] => .error (.valueError "not enough values to unpack")
          | h :: rs => .ok (h, rs)
        else .ok (header, page.rows)
      match headerRowsE with
      | .error e => .error e
      | .ok (header, rows) =>
        let result := result ++ parseRows header rows
        match page.nextToken with
        | none => .ok result
        | some t =>
          if t ∈ next_tokens then .ok result
          else athenaFetchLoop svc format_type fuel (index + 1) (next_tokens ++ [t]) header result
    else athenaFetchLoop svc format_type fuel (index + 1) next_tokens header result

/-- `load_with_athena_query`: resolve the format, submit (the submission
itself cannot fail in the model — failures surface through the status), poll
to a terminal status, then fetch result pages.  `pollFuel` bounds the
unbounded polling loop of the source; `none` models the loop never reaching
a terminal status. -/
def load_with_athena_query (svc : AthenaClient) (query : String)
    (format_type₀ : String) (request_limit : Nat) (pollFuel : Nat) :
    Option (Except PyErr AthenaResult) :=
  let format_type := if format_type₀ = "auto" then get_format_type query else format_type₀
  match pollStatus svc query pollFuel 0 with
  | none => none
  | some (.error e) => some (.error e)
  | some (.ok _) => some (athenaFetchLoop svc format_type request_limit 0 [] [] [])

/-- A service that succeeds immediately and serves three pages whose tokens
cycle `t1, t2, t1`. -/
def svcPages : AthenaClient where
  statusAt := fun _ => .succeeded
  firstPage := ⟨[["colA", "colB"], ["a1", "a2"]], some "t1"⟩
  pageAt := fun t =>
    if t = "t1" then ⟨[["b1", "b2"]], some "t2"⟩
    else if t = "t2" then ⟨[["c1", "c2"]], some "t1"⟩
    else ⟨[], none⟩

example :
    load_with_athena_query svcPages "SELECT x" "auto" 10000 1
      = some (.ok [.row [("colA", "a1"), ("colB", "a2")],
                   .row [("colA", "b1"), ("colB", "b2")],
                   .row [("colA", "c1"), ("colB", "c2")]]) := by rfl

/-- A service that reports `FAILED` at the first poll. -/
def svcFail : AthenaClient where
  statusAt := fun _ => .failed
  firstPage := ⟨[], none⟩
  pageAt := fun _ => ⟨[], none⟩

/-- A service that reports `CANCELLED` at the first poll. -/
def svcCancel : AthenaClient where
  statusAt := fun _ => .cancelled
  firstPage := ⟨[], none⟩
  pageAt := fun _ => ⟨[], none⟩

example :
    load_with_athena_query svcFail "q" "select" 10 1
      = some (.error (.valueError "[q] is failed.")) := rfl

/-! ## String lemmas -/

/-- Characters of a concatenation. -/
theorem strDataAppend (a b : String) : chars (a ++ b) = chars a ++ chars b := by
  cases a; cases b; rfl

/-- Strings with the same characters are equal. -/
theorem strDataInj {a b : String} (h : chars a = chars b) : a = b := by
  cases a; cases b; exact congrArg String.mk h

/-- Associativity of string concatenation. -/
theorem strAppendAssoc (a b c : String) : a ++ b ++ c = a ++ (b ++ c) := by
  cases a; cases b; cases c
  exact congrArg String.mk (List.append_assoc _ _ _)

/-- Length of a concatenation. -/
theorem strLengthAppend (a b : String) : (a ++ b).length = a.length + b.length := by
  cases a; cases b; exact List.length_append _ _

/-- Two strings whose (padded) first characters differ are different. -/
theorem strNeOfHead {x y : String} (h : (chars x).headD ' ' ≠ (chars y).headD ' ') : x ≠ y :=
  fun he => h (by rw [he])

/-! ## Claim C1 -/

/-- C1: the path round-trip fails on the code.  A key built with
`storeKind = "raw"`, `tableKind = "general"`, table `t`, channel `value`,
path `p.txt` and partition `2020-08-30` parses back with
`store_kind = "general"`: `_parse_full_path` reads `splited[3]` — the
table-kind segment — into its `store_kind` field, one position off the
layout `_get_warehouse_full_path` constructs, so the claimed recovery of
`storeKind` does not hold (channel, table name, partition and the `.gz` flag
come back correctly). -/
theorem C1_parse_returns_table_kind_as_store_kind :
    _get_warehouse_full_path "" "raw" "t" "p.txt" "general" "2020-08-30" false
      = some "raw/general/value/t/2020-08-30/p.txt.gz"
    ∧ _parse_full_path "warehouse"
        ("default/" ++ "warehouse" ++ "/" ++ "raw/general/value/t/2020-08-30/p.txt.gz")
      = .ok ⟨"default/warehouse/raw/general/value/t/2020-08-30/p.txt", ".txt",
             "general", "value", "t", true, "2020-08-30"⟩
    ∧ "general" ≠ "raw" :=
  ⟨rfl, rfl, by decide⟩

/-! ## Claim C2 -/

/-- C2: the listing filter is not applied.  With backend keys
`a/1, a/2, b/1` and `includes = ["a/"]`, the non-directory, non-loading list
call returns all three entries — including `b/1`, whose key contains no
`includes` substring — because `_list_worker` overwrites its filtered list
with a fresh `list_objects` call; the filter it computed (shown last) would
have kept exactly `a/1` and `a/2`. -/
theorem C2_includes_filter_discarded :
    _list_worker esListAB (fun _ => .str "v") (fun _ => []) ctx0
      "raw" "general" "t" "" "" false false ["a/"] false
      = .ok (.objs [⟨"a/1", []⟩, ⟨"a/2", []⟩, ⟨"b/1", []⟩])
    ∧ pyContains "b/1" "a/" = false
    ∧ includesFilter ["a/"] [⟨"a/1", []⟩, ⟨"a/2", []⟩, ⟨"b/1", []⟩]
        = [⟨"a/1", []⟩, ⟨"a/2", []⟩] :=
  ⟨rfl, by decide, rfl⟩

/-! ## Claim C5 -/

/-- A backend returning a fixed payload for every key. -/
def esPayload : String → PyVal := fun _ => .str "payload"

/-- C5 counterexample: a key that does not start with
`default/{warehouse_name}/` is fetched anyway.  `load_with_full_path` issues
the backend fetch for exactly the given key and returns its payload instead
of failing with an invalid-path error, and `load_meta_with_full_path`
likewise fetches the channel-rewritten key — no validation happens. -/
theorem C5_counterexample :
    pyStartsWith "foo/bar/a/b/value/c" ("default/" ++ "warehouse" ++ "/") = false
    ∧ load_with_full_path esPayload "foo/bar/a/b/value/c"
        = (["foo/bar/a/b/value/c"], .str "payload")
    ∧ load_meta_with_full_path esPayload "foo/bar/a/b/value/c"
        = .ok (["foo/bar/a/b/meta/c"], .str "payload") :=
  ⟨by decide, rfl, rfl⟩

/-- C5 (amended): the full-path loaders perform no warehouse-prefix
validation.  `load_with_full_path` fetches exactly its argument and returns
the backend payload; `load_meta_with_full_path` rewrites the fifth
slash-separated segment to `meta` and fetches that key when the key has at
least five segments, and raises `IndexError` (not an invalid-path error)
otherwise. -/
theorem C5_full_path_loaders (es : String → PyVal) (k : String) :
    load_with_full_path es k = ([k], es k)
    ∧ (4 < (pySplit '/' k).length →
        load_meta_with_full_path es k
          = .ok ([pyJoin "/" ((pySplit '/' k).set 4 "meta")],
                 es (pyJoin "/" ((pySplit '/' k).set 4 "meta"))))
    ∧ ((pySplit '/' k).length ≤ 4 →
        load_meta_with_full_path es k
          = .error (.indexError "list assignment index out of range")) := by
  refine ⟨rfl, fun h => ?_, fun h => ?_⟩
  · unfold load_meta_with_full_path _get_meta_path_with_full_path pyListSet
    rw [if_pos h]
  · unfold load_meta_with_full_path _get_meta_path_with_full_path pyListSet
    rw [if_neg (by omega)]

/-- C5 witness: the amended theorem at a well-formed value key — the channel
segment flips from `value` to `meta` before the fetch. -/
theorem C5_witness :
    load_meta_with_full_path esPayload "default/warehouse/raw/general/value/t/p.gz"
      = .ok ([pyJoin "/" ((pySplit '/' "default/warehouse/raw/general/value/t/p.gz").set 4 "meta")],
             esPayload (pyJoin "/" ((pySplit '/' "default/warehouse/raw/general/value/t/p.gz").set 4 "meta"))) :=
  (C5_full_path_loaders esPayload "default/warehouse/raw/general/value/t/p.gz").2.1 (by decide)

/-! ## Claim C6 -/

/-- C6: `_get_warehouse_full_path` does not fail on a bad store kind — it
falls off the end of the function and Python returns `None`.  For every
store kind other than `raw` and `discovery` the result is `none`: no
exception is raised (the claimed `InvalidArgument` failure does not happen
here; the `ValueError` guarding saves lives in `_upgrade_meta`), and no key
is produced either. -/
theorem C6_bad_store_kind_returns_none (self_table_name table_name user_path table_kind ymd : String)
    (is_meta : Bool) (store_kind : String)
    (h1 : store_kind ≠ "raw") (h2 : store_kind ≠ "discovery") :
    _get_warehouse_full_path self_table_name store_kind table_name user_path table_kind ymd is_meta
      = none := by
  unfold _get_warehouse_full_path
  simp [h1, h2]

/-- C6 witness: the store kind `bogus` yields `None`, not an exception. -/
theorem C6_witness :
    _get_warehouse_full_path "" "bogus" "t" "p" "general" "" false = none :=
  C6_bad_store_kind_returns_none "" "t" "p" "general" "" false "bogus" (by decide) (by decide)

/-! ## Claim C9 -/

/-- C9: `_get_valid_user_path` rejects the empty path and the bare `.` with
`ValueError`; every other path starting with `.` comes back with
`str(time.time_ns()) + "_" + <5 random characters>` glued directly in front;
every path not starting with `.` passes through unchanged. -/
theorem C9_anonymous_user_path (t : Nat) (r : Nat → Fin 62) (up : String) :
    (up = "" →
      _get_valid_user_path t r up = .error (.valueError ("invalid user_path " ++ up)))
    ∧ (up = "." →
      _get_valid_user_path t r up = .error (.valueError ("invalid user_path " ++ up)))
    ∧ ((chars up).headD ' ' = '.' → up ≠ "." →
      _get_valid_user_path t r up
        = .ok (toString t ++ "_" ++ _get_random_string r 5 ++ up)
      ∧ (_get_random_string r 5).length = 5)
    ∧ ((chars up).headD ' ' ≠ '.' → up ≠ "" → _get_valid_user_path t r up = .ok up) := by
  refine ⟨fun h => ?_, fun h => ?_, fun hdot hne => ⟨?_, ?_⟩, fun hdot hne => ?_⟩
  · subst h; rfl
  · subst h; rfl
  · have hne0 : chars up ≠ [] := by
      intro h0
      rw [h0] at hdot
      exact absurd hdot (by decide)
    have hne1 : (chars up).length ≠ 1 := by
      intro h1
      apply hne
      apply strDataInj
      match hc : chars up, h1 with
      | [c], _ =>
        rw [hc] at hdot
        simp at hdot
        simp [hdot, chars]
    unfold _get_valid_user_path
    rw [if_neg (by simpa using hne0), if_pos hdot, if_neg hne1]
  · simp [_get_random_string, ofChars, String.length]
  · have hne0 : chars up ≠ [] := fun h0 => hne (strDataInj (by simpa [chars] using h0))
    unfold _get_valid_user_path
    rw [if_neg (by simpa using hne0), if_neg hdot]

/-- C9 witness: the anonymous path `.csv` at `time_ns = 42` with the
all-zero draw stream becomes `42_aaaaa.csv`. -/
theorem C9_witness :
    _get_valid_user_path 42 rand0 ".csv"
      = .ok (toString 42 ++ "_" ++ _get_random_string rand0 5 ++ ".csv")
    ∧ (_get_random_string rand0 5).length = 5 :=
  (C9_anonymous_user_path 42 rand0 ".csv").2.2.1 (by decide) (by decide)

/-! ## Claim C8 -/

/-- One non-terminal poll just advances the loop. -/
theorem pollStatus_step (svc : AthenaClient) (q : String) (fuel i : Nat)
    (h : svc.statusAt i = .running ∨ svc.statusAt i = .queued) :
    pollStatus svc q (fuel + 1) i = pollStatus svc q fuel (i + 1) := by
  rcases h with h | h <;> simp [pollStatus, h]

/-- Skipping `i` non-terminal polls. -/
theorem pollStatus_shift (svc : AthenaClient) (q : String) (i fuel : Nat)
    (hfuel : i ≤ fuel)
    (hpre : ∀ j, j < i → svc.statusAt j = .running ∨ svc.statusAt j = .queued) :
    pollStatus svc q fuel 0 = pollStatus svc q (fuel - i) i := by
  induction i with
  | zero => rfl
  | succ n ih =>
    have h1 : pollStatus svc q fuel 0 = pollStatus svc q (fuel - n) n :=
      ih (Nat.le_of_succ_le hfuel) (fun j hj => hpre j (Nat.lt_succ_of_lt hj))
    have h2 : fuel - n = (fuel - (n + 1)) + 1 := by omega
    rw [h1, h2, pollStatus_step svc q _ n (hpre n (Nat.lt_succ_self n))]

/-- C8: whenever the query service first reports `FAILED` (resp.
`CANCELLED`) after any number of `RUNNING`/`QUEUED` polls,
`load_with_athena_query` raises the `ValueError` naming the query and
returns no result at all — it never returns normally from a failed or
cancelled execution. -/
theorem C8_terminal_status_errors (svc : AthenaClient) (q ft : String) (limit fuel i : Nat)
    (hpre : ∀ j, j < i → svc.statusAt j = .running ∨ svc.statusAt j = .queued)
    (hfuel : i < fuel) :
    (svc.statusAt i = .failed →
      load_with_athena_query svc q ft limit fuel
        = some (.error (.valueError ("[" ++ q ++ "] is failed."))))
    ∧ (svc.statusAt i = .cancelled →
      load_with_athena_query svc q ft limit fuel
        = some (.error (.valueError ("[" ++ q ++ "] is cancelled.")))) := by
  have hs := pollStatus_shift svc q i fuel (Nat.le_of_lt hfuel) hpre
  have h2 : fuel - i = (fuel - i - 1) + 1 := by omega
  constructor <;> intro hst <;> unfold load_with_athena_query <;>
    rw [hs, h2] <;> simp [pollStatus, hst]

/-- C8 witness: services failing (resp. cancelled) at the very first poll
produce the corresponding error. -/
theorem C8_witness :
    load_with_athena_query svcFail "q" "select" 10 1
      = some (.error (.valueError ("[" ++ "q" ++ "] is failed.")))
    ∧ load_with_athena_query svcCancel "q" "select" 10 1
      = some (.error (.valueError ("[" ++ "q" ++ "] is cancelled."))) :=
  ⟨(C8_terminal_status_errors svcFail "q" "select" 10 1 0
      (fun j hj => absurd hj (Nat.not_lt_zero j)) (by decide)).1 rfl,
   (C8_terminal_status_errors svcCancel "q" "select" 10 1 0
      (fun j hj => absurd hj (Nat.not_lt_zero j)) (by decide)).2 rfl⟩

/-! ## Claim C4 -/

/-- C4 counterexample: with the service of the claim's scenario — pages
tokenized `t1`, `t2`, then `t1` again — row-parsing pagination does
terminate, but the returned rows are those of the first **three** pages, not
of the first two: the third page's rows are appended before the repeated
token is noticed. -/
theorem C4_counterexample :
    load_with_athena_query svcPages "SELECT x" "auto" 10000 1
      = some (.ok [.row [("colA", "a1"), ("colB", "a2")],
                   .row [("colA", "b1"), ("colB", "b2")],
                   .row [("colA", "c1"), ("colB", "c2")]])
    ∧ ([.row [("colA", "a1"), ("colB", "a2")],
        .row [("colA", "b1"), ("colB", "b2")],
        .row [("colA", "c1"), ("colB", "c2")]] : AthenaResult)
        ≠ [.row [("colA", "a1"), ("colB", "a2")],
           .row [("colA", "b1"), ("colB", "b2")]] :=
  ⟨rfl, fun h => absurd (congrArg List.length h) (by decide)⟩

/-- C4 (amended): for any service whose pages carry the token cycle
`t1, t2, t1`, select-mode pagination terminates after fetching the third
page and returns the parsed rows of all three fetched pages (the page
bearing the repeated token included, its rows having been appended before
the cycle guard fires). -/
theorem C4_pagination_cycle_guard (svc : AthenaClient) (q : String) (hdr : List String)
    (r1 r2 r3 : List (List String)) (t1 t2 : String) (limit fuel : Nat)
    (hst : svc.statusAt 0 = .succeeded)
    (hp1 : svc.firstPage = ⟨hdr :: r1, some t1⟩)
    (hp2 : svc.pageAt t1 = ⟨r2, some t2⟩)
    (hp3 : svc.pageAt t2 = ⟨r3, some t1⟩)
    (hne : t1 ≠ t2)
    (hlimit : 3 ≤ limit) (hfuel : 1 ≤ fuel) :
    load_with_athena_query svc q "select" limit fuel
      = some (.ok (parseRows hdr (r1 ++ r2 ++ r3))) := by
  obtain ⟨n, rfl⟩ : ∃ n, limit = n + 3 := ⟨limit - 3, by omega⟩
  obtain ⟨m, rfl⟩ : ∃ m, fuel = m + 1 := ⟨fuel - 1, by omega⟩
  unfold load_with_athena_query
  rw [if_neg (by decide)]
  simp only [pollStatus, hst]
  have step1 :
      athenaFetchLoop svc "select" (n + 3) 0 [] [] []
        = athenaFetchLoop svc "select" (n + 2) 1 [t1] hdr (parseRows hdr r1) := by
    show athenaFetchLoop svc "select" (n + 2 + 1) 0 [] [] [] = _
    simp [athenaFetchLoop, hp1]
  have step2 :
      athenaFetchLoop svc "select" (n + 2) 1 [t1] hdr (parseRows hdr r1)
        = athenaFetchLoop svc "select" (n + 1) 2 [t1, t2] hdr
            (parseRows hdr r1 ++ parseRows hdr r2) := by
    show athenaFetchLoop svc "select" (n + 1 + 1) 1 [t1] hdr (parseRows hdr r1) = _
    simp [athenaFetchLoop, hp2, Ne.symm hne]
  have step3 :
      athenaFetchLoop svc "select" (n + 1) 2 [t1, t2] hdr
          (parseRows hdr r1 ++ parseRows hdr r2)
        = .ok (parseRows hdr r1 ++ parseRows hdr r2 ++ parseRows hdr r3) := by
    simp [athenaFetchLoop, hp3]
  rw [step1, step2, step3]
  simp [parseRows]

/-- C4 witness: the amended pagination theorem at the concrete three-page
service. -/
theorem C4_witness :
    load_with_athena_query svcPages "SELECT x" "select" 10000 1
      = some (.ok (parseRows ["colA", "colB"]
          ([["a1", "a2"]] ++ [["b1", "b2"]] ++ [["c1", "c2"]]))) :=
  C4_pagination_cycle_guard svcPages "SELECT x" ["colA", "colB"]
    [["a1", "a2"]] [["b1", "b2"]] [["c1", "c2"]] "t1" "t2" 10000 1
    rfl rfl rfl rfl (by decide) (by decide) (by decide)

/-! ## Anatomy of a successful save -/

/-- The normalized user path of a save (meaningful whenever normalization
succeeded). -/
def normUP (ctx : Ctx) (up₀ : String) : String :=
  match _get_valid_user_path ctx.time_ns ctx.rand up₀ with
  | .ok s => s
  | .error _ => ""

/-- The compression option both writes of a save use. -/
def saveOptOf (ctx : Ctx) (up₀ : String) : Option String :=
  if (pySplitext (normUP ctx up₀)).2 ≠ ".parquet" then some "gz" else none

/-- The value key a save writes to. -/
def saveValuePath (ctx : Ctx) (sk tk up₀ tn : String) (uy : Bool) (uymd : String) : String :=
  optRender (_get_warehouse_full_path ctx.self_table_name sk
    (_get_table_name ctx.self_table_name tn) (normUP ctx up₀) tk (resolvedYmd ctx uy uymd) false)

/-- The meta key a save writes to. -/
def saveMetaPath (ctx : Ctx) (sk tk up₀ tn : String) (uy : Bool) (uymd : String) : String :=
  optRender (_get_warehouse_full_path ctx.self_table_name sk
    (_get_table_name ctx.self_table_name tn) (normUP ctx up₀) tk (resolvedYmd ctx uy uymd) true)

/-- Resolving a table name is idempotent. -/
theorem get_table_name_idem (s t : String) :
    _get_table_name s (_get_table_name s t) = _get_table_name s t := by
  unfold _get_table_name
  by_cases h : t ≠ "" <;> by_cases h2 : s ≠ "" <;> simp_all

/-- Shape of every successful `_save_worker` run: the user path normalized,
the value possibly transcoded, the metadata upgraded, and exactly the two
writes in the order the store kind dictates. -/
theorem save_ok_cases (ctx : Ctx) (sk tk up₀ : String) (v₀ : PyVal) (meta : MetaDict)
    (uy : Bool) (tn uymd : String) (eff : SaveEffect)
    (h : _save_worker ctx sk tk up₀ v₀ meta uy tn uymd = .ok eff) :
    ∃ up' tv M,
      _get_valid_user_path ctx.time_ns ctx.rand up₀ = .ok up'
      ∧ transcodeStep (pySplitext up').2 v₀ = .ok tv
      ∧ _upgrade_meta ctx sk meta
          (optRender (_get_warehouse_full_path ctx.self_table_name sk
            (_get_table_name ctx.self_table_name tn) up' tk (resolvedYmd ctx uy uymd) false))
          (_get_table_name ctx.self_table_name tn) = .ok M
      ∧ ((sk = "raw"
          ∧ eff = ⟨[⟨saveMetaPath ctx sk tk up₀ tn uy uymd, .metaRec M, saveOptOf ctx up₀⟩,
                    ⟨saveValuePath ctx sk tk up₀ tn uy uymd, .payload tv, saveOptOf ctx up₀⟩],
                   saveValuePath ctx sk tk up₀ tn uy uymd⟩)
        ∨ (sk = "discovery"
          ∧ eff = ⟨[⟨saveValuePath ctx sk tk up₀ tn uy uymd, .payload tv, saveOptOf ctx up₀⟩,
                    ⟨saveMetaPath ctx sk tk up₀ tn uy uymd, .metaRec M, saveOptOf ctx up₀⟩],
                   saveValuePath ctx sk tk up₀ tn uy uymd⟩)) := by
  unfold _save_worker at h
  cases heq1 : _get_valid_user_path ctx.time_ns ctx.rand up₀ with
  | error e => rw [heq1, exceptBindErr] at h; exact absurd h (by simp)
  | ok up' =>
    rw [heq1, exceptBindOk] at h
    have hn : normUP ctx up₀ = up' := by unfold normUP; rw [heq1]
    cases heq2 : transcodeStep (pySplitext up').2 v₀ with
    | error e => rw [heq2, exceptBindErr] at h; exact absurd h (by simp)
    | ok tv =>
      rw [heq2, exceptBindOk] at h
      cases heq3 : _upgrade_meta ctx sk meta
          (optRender (_get_warehouse_full_path ctx.self_table_name sk
            (_get_table_name ctx.self_table_name tn) up' tk (resolvedYmd ctx uy uymd) false))
          (_get_table_name ctx.self_table_name tn) with
      | error e => rw [heq3, exceptBindErr] at h; exact absurd h (by simp)
      | ok M =>
        rw [heq3, exceptBindOk] at h
        by_cases hsk : sk = "raw"
        · rw [if_pos hsk] at h
          refine ⟨up', tv, M, rfl, heq2, heq3, Or.inl ⟨hsk, ?_⟩⟩
          simp only [saveMetaPath, saveValuePath, saveOptOf, hn]
          injection h with h'
          exact h'.symm
        · rw [if_neg hsk] at h
          by_cases hsk2 : sk = "discovery"
          · rw [if_pos hsk2] at h
            refine ⟨up', tv, M, rfl, heq2, heq3, Or.inr ⟨hsk2, ?_⟩⟩
            simp only [saveMetaPath, saveValuePath, saveOptOf, hn]
            injection h with h'
            exact h'.symm
          · rw [if_neg hsk2] at h
            exact absurd h (by simp)

/-! ## Claim C3 -/

/-- C3: every successful save issues exactly two writes with one shared
compression option, with the meta write strictly first for `raw` and the
value write strictly first for `discovery`. -/
theorem C3_write_ordering (ctx : Ctx) (sk tk up₀ : String) (v₀ : PyVal) (meta : MetaDict)
    (uy : Bool) (tn uymd : String) (eff : SaveEffect)
    (h : _save_worker ctx sk tk up₀ v₀ meta uy tn uymd = .ok eff) :
    eff.writes.length = 2
    ∧ (sk = "raw" → eff.writes.map WriteOp.kind = [.metaW, .valueW])
    ∧ (sk = "discovery" → eff.writes.map WriteOp.kind = [.valueW, .metaW])
    ∧ eff.writes.map WriteOp.option = [saveOptOf ctx up₀, saveOptOf ctx up₀] := by
  obtain ⟨up', tv, M, _, _, _, hcase⟩ := save_ok_cases ctx sk tk up₀ v₀ meta uy tn uymd eff h
  rcases hcase with ⟨hsk, rfl⟩ | ⟨hsk, rfl⟩ <;> subst hsk
  · exact ⟨rfl, fun _ => rfl, fun hd => absurd hd (by decide), rfl⟩
  · exact ⟨rfl, fun hd => absurd hd (by decide), fun _ => rfl, rfl⟩

/-- C3 witness: a concrete raw save — meta write first, value write second,
both compressed with `gz`. -/
theorem C3_witness :
    _save_worker ctx0 "raw" "general" "p.txt" (.str "hello") [] true "" "" = .ok effRaw
    ∧ effRaw.writes.length = 2
    ∧ effRaw.writes.map WriteOp.kind = [.metaW, .valueW]
    ∧ effRaw.writes.map WriteOp.option = [saveOptOf ctx0 "p.txt", saveOptOf ctx0 "p.txt"] := by
  have h : _save_worker ctx0 "raw" "general" "p.txt" (.str "hello") [] true "" "" = .ok effRaw := rfl
  obtain ⟨h1, h2, _, h4⟩ :=
    C3_write_ordering ctx0 "raw" "general" "p.txt" (.str "hello") [] true "" "" effRaw h
  exact ⟨h, h1, h2 rfl, h4⟩

/-! ## Dict-lookup lemmas -/

/-- Lookup after the overwrite pass of `dictSet`. -/
theorem pyLookup_map_replace (d : MetaDict) (k : String) (v : PyVal) :
    pyLookup k (d.map (fun p => if p.1 = k then (k, v) else p))
      = if d.any (fun p => p.1 = k) then some v else none := by
  induction d with
  | nil => rfl
  | cons p rest ih =>
    obtain ⟨a, b⟩ := p
    simp only [List.map_cons, List.any_cons]
    by_cases ha : a = k
    · subst ha
      rw [if_pos rfl]
      simp [pyLookup]
    · rw [if_neg ha]
      rw [pyLookup]
      rw [if_neg ha, ih]
      split_ifs <;> simp_all [decide_eq_false ha]

/-- Lookup of a freshly appended binding. -/
theorem pyLookup_append_single (d : MetaDict) (k : String) (v : PyVal)
    (h : d.any (fun p => p.1 = k) = false) :
    pyLookup k (d ++ [(k, v)]) = some v := by
  induction d with
  | nil => simp [pyLookup]
  | cons p rest ih =>
    obtain ⟨a, b⟩ := p
    simp only [List.any_cons, Bool.or_eq_false_iff] at h
    have ha : ¬(a = k) := by simpa using h.1
    simp [pyLookup, ha, ih h.2]

/-- `d[k] = v` makes `d[k]` read back `v`. -/
theorem pyLookup_dictSet_self (d : MetaDict) (k : String) (v : PyVal) :
    pyLookup k (dictSet d k v) = some v := by
  cases h : d.any (fun p => p.1 = k) with
  | true => simp [dictSet, h, pyLookup_map_replace]
  | false => simp [dictSet, h, pyLookup_append_single d k v h]

/-- Overwriting another key leaves a lookup unchanged (overwrite pass). -/
theorem pyLookup_map_replace_ne (d : MetaDict) (k k' : String) (v : PyVal) (hne : k ≠ k') :
    pyLookup k (d.map (fun p => if p.1 = k' then (k', v) else p)) = pyLookup k d := by
  induction d with
  | nil => rfl
  | cons p rest ih =>
    obtain ⟨a, b⟩ := p
    simp only [List.map_cons]
    by_cases ha : a = k'
    · subst ha
      rw [if_pos rfl]
      simp [pyLookup, Ne.symm hne, ih]
    · rw [if_neg ha]
      by_cases hak : a = k <;> simp [pyLookup, hak, ih]

/-- Appending another key leaves a lookup unchanged. -/
theorem pyLookup_append_single_ne (d : MetaDict) (k k' : String) (v : PyVal) (hne : k ≠ k') :
    pyLookup k (d ++ [(k', v)]) = pyLookup k d := by
  induction d with
  | nil => simp [pyLookup, Ne.symm hne]
  | cons p rest ih =>
    obtain ⟨a, b⟩ := p
    by_cases hak : a = k <;> simp [pyLookup, hak, ih]

/-- `d[k'] = v` does not change `d[k]` for `k ≠ k'`. -/
theorem pyLookup_dictSet_ne (d : MetaDict) (k k' : String) (v : PyVal) (hne : k ≠ k') :
    pyLookup k (dictSet d k' v) = pyLookup k d := by
  cases h : d.any (fun p => p.1 = k') with
  | true => simp [dictSet, h, pyLookup_map_replace_ne d k k' v hne]
  | false => simp [dictSet, h, pyLookup_append_single_ne d k k' v hne]

/-- Concatenation on the left is cancellative. -/
theorem strAppendLeftCancel {a b c : String} (h : a ++ b = a ++ c) : b = c := by
  have h2 := congrArg chars h
  rw [strDataAppend, strDataAppend] at h2
  exact strDataInj (List.append_cancel_left h2)

/-- Re-keying every entry with a fixed namespace commutes with lookup. -/
theorem pyLookup_prefixMap (pre k : String) (d : MetaDict) :
    pyLookup (pre ++ k) (d.map (fun p => (pre ++ p.1, p.2))) = pyLookup k d := by
  induction d with
  | nil => rfl
  | cons p rest ih =>
    obtain ⟨a, b⟩ := p
    by_cases hak : a = k
    · subst hak
      simp [pyLookup, ih]
    · have hpre : ¬(pre ++ a = pre ++ k) := fun hh => hak (strAppendLeftCancel hh)
      simp [pyLookup, hak, hpre, ih]

/-! ## Claim C7 -/

/-- Everything of a save's keys after the channel segment: table name,
optional partition, normalized path and compression suffix. -/
def saveRest (ctx : Ctx) (up₀ tn : String) (uy : Bool) (uymd : String) : String :=
  _get_table_name ctx.self_table_name tn
    ++ (if resolvedYmd ctx uy uymd ≠ "" then "/" ++ resolvedYmd ctx uy uymd else "")
    ++ "/" ++ normUP ctx up₀
    ++ (if (pySplitext (normUP ctx up₀)).2 ≠ ".parquet" then ".gz" else "")

/-- The metadata record a save wrote (the content of its meta write). -/
def savedMetaRec (eff : SaveEffect) : MetaDict :=
  (eff.writes.filterMap (fun w => match w.content with
    | .metaRec m => some m
    | _ => none)).headD []

/-- `_get_warehouse_full_path` rendered for the two valid store kinds,
with the store kind split off as its own leading segment. -/
theorem optRender_wfp (self tn up tk ymd : String) (b : Bool) :
    optRender (_get_warehouse_full_path self "raw" tn up tk ymd b)
        = "raw" ++ "/" ++ tk ++ "/" ++ (if b then "meta" else "value") ++ "/"
          ++ (_get_table_name self tn ++ (if ymd ≠ "" then "/" ++ ymd else "") ++ "/" ++ up
              ++ (if (pySplitext up).2 ≠ ".parquet" then ".gz" else ""))
    ∧ optRender (_get_warehouse_full_path self "discovery" tn up tk ymd b)
        = "discovery" ++ "/" ++ tk ++ "/" ++ (if b then "meta" else "value") ++ "/"
          ++ (_get_table_name self tn ++ (if ymd ≠ "" then "/" ++ ymd else "") ++ "/" ++ up
              ++ (if (pySplitext up).2 ≠ ".parquet" then ".gz" else "")) := by
  constructor
  · apply strDataInj
    show chars ("raw/" ++ (tk ++ "/" ++ (if b then "meta" else "value") ++ "/"
      ++ _get_table_name self tn ++ (if ymd ≠ "" then "/" ++ ymd else "") ++ "/" ++ up
      ++ (if (pySplitext up).2 ≠ ".parquet" then ".gz" else ""))) = _
    simp only [strDataAppend, List.append_assoc]
    rfl
  · apply strDataInj
    show chars ("discovery/" ++ (tk ++ "/" ++ (if b then "meta" else "value") ++ "/"
      ++ _get_table_name self tn ++ (if ymd ≠ "" then "/" ++ ymd else "") ++ "/" ++ up
      ++ (if (pySplitext up).2 ≠ ".parquet" then ".gz" else ""))) = _
    simp only [strDataAppend, List.append_assoc]
    rfl

/-- The two keys of one save differ exactly at the channel segment: both are
`{store_kind}/{table_kind}/<channel>/<rest>` with a shared rest. -/
theorem savePath_factor (ctx : Ctx) (sk tk up₀ tn : String) (uy : Bool) (uymd : String)
    (hsk : sk = "raw" ∨ sk = "discovery") :
    saveValuePath ctx sk tk up₀ tn uy uymd
        = sk ++ "/" ++ tk ++ "/" ++ "value" ++ "/" ++ saveRest ctx up₀ tn uy uymd
    ∧ saveMetaPath ctx sk tk up₀ tn uy uymd
        = sk ++ "/" ++ tk ++ "/" ++ "meta" ++ "/" ++ saveRest ctx up₀ tn uy uymd := by
  rcases hsk with h | h <;> subst h
  · constructor
    · unfold saveValuePath saveRest
      rw [(optRender_wfp ctx.self_table_name (_get_table_name ctx.self_table_name tn)
        (normUP ctx up₀) tk (resolvedYmd ctx uy uymd) false).1, get_table_name_idem]
      rfl
    · unfold saveMetaPath saveRest
      rw [(optRender_wfp ctx.self_table_name (_get_table_name ctx.self_table_name tn)
        (normUP ctx up₀) tk (resolvedYmd ctx uy uymd) true).1, get_table_name_idem]
      rfl
  · constructor
    · unfold saveValuePath saveRest
      rw [(optRender_wfp ctx.self_table_name (_get_table_name ctx.self_table_name tn)
        (normUP ctx up₀) tk (resolvedYmd ctx uy uymd) false).2, get_table_name_idem]
      rfl
    · unfold saveMetaPath saveRest
      rw [(optRender_wfp ctx.self_table_name (_get_table_name ctx.self_table_name tn)
        (normUP ctx up₀) tk (resolvedYmd ctx uy uymd) true).2, get_table_name_idem]
      rfl

/-- The value key и the meta key of one save are distinct. -/
theorem savePaths_ne (ctx : Ctx) (sk tk up₀ tn : String) (uy : Bool) (uymd : String)
    (hsk : sk = "raw" ∨ sk = "discovery") :
    saveValuePath ctx sk tk up₀ tn uy uymd ≠ saveMetaPath ctx sk tk up₀ tn uy uymd := by
  obtain ⟨hv, hm⟩ := savePath_factor ctx sk tk up₀ tn uy uymd hsk
  intro he
  rw [hv, hm] at he
  have hlen := congrArg String.length he
  have h5 : ("value" : String).length = 5 := rfl
  have h4 : ("meta" : String).length = 4 := rfl
  simp only [strLengthAppend, h5, h4] at hlen
  omega

/-- C7: for every successful save, the two written keys share everything but
the channel segment (`value` vs `meta`), are distinct, and the stored
metadata record's `{store_kind}_full_path` entry holds the *value* key
(compression suffix included) prefixed with `default/{warehouse_name}/` —
not the meta key. -/
theorem C7_value_meta_pairing (ctx : Ctx) (sk tk up₀ : String) (v₀ : PyVal) (meta : MetaDict)
    (uy : Bool) (tn uymd : String) (eff : SaveEffect)
    (h : _save_worker ctx sk tk up₀ v₀ meta uy tn uymd = .ok eff) :
    (eff.writes.map WriteOp.path
        = [saveMetaPath ctx sk tk up₀ tn uy uymd, saveValuePath ctx sk tk up₀ tn uy uymd]
      ∨ eff.writes.map WriteOp.path
        = [saveValuePath ctx sk tk up₀ tn uy uymd, saveMetaPath ctx sk tk up₀ tn uy uymd])
    ∧ saveValuePath ctx sk tk up₀ tn uy uymd
        = sk ++ "/" ++ tk ++ "/" ++ "value" ++ "/" ++ saveRest ctx up₀ tn uy uymd
    ∧ saveMetaPath ctx sk tk up₀ tn uy uymd
        = sk ++ "/" ++ tk ++ "/" ++ "meta" ++ "/" ++ saveRest ctx up₀ tn uy uymd
    ∧ saveValuePath ctx sk tk up₀ tn uy uymd ≠ saveMetaPath ctx sk tk up₀ tn uy uymd
    ∧ pyLookup (sk ++ "_full_path") (savedMetaRec eff)
        = some (.str ("default/" ++ ctx.wh ++ "/" ++ saveValuePath ctx sk tk up₀ tn uy uymd)) := by
  obtain ⟨up', tv, M, hval, htr, hmu, hcase⟩ :=
    save_ok_cases ctx sk tk up₀ v₀ meta uy tn uymd eff h
  have hn : normUP ctx up₀ = up' := by unfold normUP; rw [hval]
  have hskor : sk = "raw" ∨ sk = "discovery" := by
    rcases hcase with ⟨h1, _⟩ | ⟨h1, _⟩
    exacts [Or.inl h1, Or.inr h1]
  obtain ⟨hv, hm⟩ := savePath_factor ctx sk tk up₀ tn uy uymd hskor
  have hne := savePaths_ne ctx sk tk up₀ tn uy uymd hskor
  have hM : pyLookup (sk ++ "_full_path") M
      = some (.str ("default/" ++ ctx.wh ++ "/" ++ saveValuePath ctx sk tk up₀ tn uy uymd)) := by
    unfold _upgrade_meta at hmu
    rw [if_pos hskor] at hmu
    injection hmu with hmu'
    rw [← hmu']
    have hlit : ("_full_path" : String) = "_" ++ "full_path" := rfl
    rw [hlit, ← strAppendAssoc]
    have hhead : ¬("default_table_name" = sk ++ "_" ++ "full_path") := by
      rcases hskor with h1 | h1 <;> subst h1 <;> decide
    simp only [pyLookup, if_neg hhead]
    rw [pyLookup_prefixMap (sk ++ "_") "full_path" _]
    rw [pyLookup_dictSet_ne _ _ _ _ (by decide), pyLookup_dictSet_ne _ _ _ _ (by decide),
      pyLookup_dictSet_self]
    simp only [saveValuePath, hn]
  rcases hcase with ⟨hsk, rfl⟩ | ⟨hsk, rfl⟩
  · exact ⟨Or.inl rfl, hv, hm, hne, by simpa [savedMetaRec] using hM⟩
  · exact ⟨Or.inr rfl, hv, hm, hne, by simpa [savedMetaRec] using hM⟩

/-- C7 witness: the concrete raw save — the stored meta record points back at
the full value key, and the two keys differ. -/
theorem C7_witness :
    _save_worker ctx0 "raw" "general" "p.txt" (.str "hello") [] true "" "" = .ok effRaw
    ∧ pyLookup ("raw" ++ "_full_path") (savedMetaRec effRaw)
        = some (.str ("default/" ++ ctx0.wh ++ "/" ++ saveValuePath ctx0 "raw" "general" "p.txt" "" true ""))
    ∧ saveValuePath ctx0 "raw" "general" "p.txt" "" true ""
        ≠ saveMetaPath ctx0 "raw" "general" "p.txt" "" true "" := by
  have h : _save_worker ctx0 "raw" "general" "p.txt" (.str "hello") [] true "" "" = .ok effRaw := rfl
  have hc := C7_value_meta_pairing ctx0 "raw" "general" "p.txt" (.str "hello") [] true "" "" effRaw h
  exact ⟨h, hc.2.2.2.2, hc.2.2.2.1⟩

/-! ## Claim C10 -/

/-- The value payload a save wrote (the content of its value write). -/
def savedPayload (eff : SaveEffect) : Option PyVal :=
  (eff.writes.filterMap (fun w => match w.content with
    | .payload p => some p
    | _ => none)).head?

/-- The only error `_get_valid_user_path` raises is the invalid-user-path
`ValueError`. -/
theorem get_valid_user_path_err (t : Nat) (r : Nat → Fin 62) (up : String) (e : PyErr)
    (h : _get_valid_user_path t r up = .error e) :
    e = .valueError ("invalid user_path " ++ up) := by
  unfold _get_valid_user_path at h
  split_ifs at h <;> simp_all

/-- Every error out of `rowsValues` is the missing-`values` attribute
error. -/
theorem rowsValues_err (l : List PyVal) :
    ∀ e : PyErr, rowsValues l = .error e →
      e = .attributeError "object has no attribute values" := by
  induction l with
  | nil => intro e h; simp [rowsValues] at h
  | cons x rest ih =>
    intro e h
    cases x with
    | dict es =>
      unfold rowsValues at h
      cases hr : rowsValues rest with
      | error e2 =>
        rw [hr, exceptBindErr] at h
        injection h with h'
        rw [← h']
        exact ih e2 hr
      | ok rs =>
        rw [hr, exceptBindOk] at h
        exact absurd h (by simp)
    | str s =>
      unfold rowsValues at h
      injection h with h'
      exact h'.symm
    | int n =>
      unfold rowsValues at h
      injection h with h'
      exact h'.symm
    | list l2 =>
      unfold rowsValues at h
      injection h with h'
      exact h'.symm

/-- Every error `_json_to_csv` produces on an actual list is an
`AttributeError`: the must-be-list `ValueError` branch is unreachable for
list inputs. -/
theorem json_to_csv_list_err (items : List PyVal) (e : PyErr)
    (h : _json_to_csv (.list items) = .error e) :
    ∃ m, e = .attributeError m := by
  cases items with
  | nil => exact absurd h (by simp [_json_to_csv])
  | cons first rest =>
    cases first with
    | dict es =>
      simp only [_json_to_csv] at h
      cases hr : rowsValues (PyVal.dict es :: rest) with
      | error e2 =>
        rw [hr, exceptBindErr] at h
        injection h with h'
        exact ⟨"object has no attribute values", by rw [← h']; exact rowsValues_err _ e2 hr⟩
      | ok rs =>
        rw [hr, exceptBindOk] at h
        exact absurd h (by simp)
    | str s =>
      simp only [_json_to_csv] at h
      injection h with h'
      exact ⟨"object has no attribute keys", h'.symm⟩
    | int n =>
      simp only [_json_to_csv] at h
      injection h with h'
      exact ⟨"object has no attribute keys", h'.symm⟩
    | list l2 =>
      simp only [_json_to_csv] at h
      injection h with h'
      exact ⟨"object has no attribute keys", h'.symm⟩

/-- Every error out of the transcoding step is an `AttributeError`. -/
theorem transcodeStep_err (ext : String) (v : PyVal) (e : PyErr)
    (h : transcodeStep ext v = .error e) : ∃ m, e = .attributeError m := by
  cases v with
  | list items =>
    simp only [transcodeStep] at h
    split_ifs at h with hcsv
    · cases hj : _json_to_csv (.list items) with
      | error e2 =>
        rw [hj, exceptBindErr] at h
        injection h with h'
        rw [← h']
        exact json_to_csv_list_err items e2 hj
      | ok s =>
        rw [hj, exceptBindOk] at h
        exact absurd h (by simp)
  | str s => exact absurd h (by simp [transcodeStep])
  | int n => exact absurd h (by simp [transcodeStep])
  | dict es => exact absurd h (by simp [transcodeStep])

/-- Transcoding is skipped whenever the value is not a list or the extension
is not `.csv`. -/
theorem transcodeStep_skip (ext : String) (v : PyVal)
    (hguard : v.isList = false ∨ ext ≠ ".csv") :
    transcodeStep ext v = .ok v := by
  cases v with
  | list items =>
    have hne : ext ≠ ".csv" := by
      rcases hguard with h | h
      · exact absurd h (by simp [PyVal.isList])
      · exact h
    show (if ext = ".csv" then
        Except.bind (_json_to_csv (PyVal.list items)) (fun s => Except.ok (PyVal.str s))
      else Except.ok (PyVal.list items)) = Except.ok (PyVal.list items)
    rw [if_neg hne]
  | str s => rfl
  | int n => rfl
  | dict es => rfl

/-- The invalid-user-path message is never the must-be-list message. -/
theorem inv_user_path_ne_json (s : String) :
    "invalid user_path " ++ s ≠ "json data type must be list." := by
  apply strNeOfHead
  rw [strDataAppend]
  exact (by decide : ('i' : Char) ≠ 'j')

/-- The invalid-store-kind message of `_upgrade_meta` is never the
must-be-list message. -/
theorem inv_store_kind_ne_json (s : String) :
    "invalid store_kind " ++ s ≠ "json data type must be list." := by
  apply strNeOfHead
  rw [strDataAppend]
  exact (by decide : ('i' : Char) ≠ 'j')

/-- The invalid-store-kind message of `_save_worker` is never the
must-be-list message. -/
theorem inv_store_kind2_ne_json (s : String) :
    "invalid store kind " ++ s ≠ "json data type must be list." := by
  apply strNeOfHead
  rw [strDataAppend]
  exact (by decide : ('i' : Char) ≠ 'j')

/-- The only error `_upgrade_meta` raises is the invalid-store-kind
`ValueError`. -/
theorem upgrade_meta_err (ctx : Ctx) (sk : String) (meta : MetaDict) (wfp tn : String)
    (e : PyErr) (h : _upgrade_meta ctx sk meta wfp tn = .error e) :
    e = .valueError ("invalid store_kind " ++ sk) := by
  unfold _upgrade_meta at h
  split_ifs at h
  injection h with h'
  exact h'.symm

/-- C10: CSV transcoding fires exactly when the normalized path ends `.csv`
and the value is a list, with no element-type check: (1) a non-empty list
whose first element is not a dict crashes the save inside the transcode with
an `AttributeError` — before any write is issued, so storage is unchanged;
(2) the transcoder's own must-be-list `ValueError` can never escape
`_save_worker`; (3) when the guard does not fire, the written payload is the
value unchanged. -/
theorem C10_csv_transcode_guard :
    (∀ (ctx : Ctx) (sk tk up₀ : String) (x : PyVal) (xs : List PyVal) (meta : MetaDict)
        (uy : Bool) (tn uymd up' : String),
      _get_valid_user_path ctx.time_ns ctx.rand up₀ = .ok up' →
      (pySplitext up').2 = ".csv" →
      x.isDict = false →
      _save_worker ctx sk tk up₀ (.list (x :: xs)) meta uy tn uymd
        = .error (.attributeError "object has no attribute keys"))
    ∧ (∀ (ctx : Ctx) (sk tk up₀ : String) (v : PyVal) (meta : MetaDict) (uy : Bool)
        (tn uymd : String),
      _save_worker ctx sk tk up₀ v meta uy tn uymd
        ≠ .error (.valueError "json data type must be list."))
    ∧ (∀ (ctx : Ctx) (sk tk up₀ : String) (v : PyVal) (meta : MetaDict) (uy : Bool)
        (tn uymd : String) (eff : SaveEffect),
      (v.isList = false ∨ (pySplitext (normUP ctx up₀)).2 ≠ ".csv") →
      _save_worker ctx sk tk up₀ v meta uy tn uymd = .ok eff →
      savedPayload eff = some v) := by
  refine ⟨?_, ?_, ?_⟩
  · intro ctx sk tk up₀ x xs meta uy tn uymd up' hval hcsv hdict
    unfold _save_worker
    rw [hval, exceptBindOk]
    have htr : transcodeStep (pySplitext up').2 (.list (x :: xs))
        = .error (.attributeError "object has no attribute keys") := by
      show (if (pySplitext up').2 = ".csv" then
          Except.bind (_json_to_csv (PyVal.list (x :: xs))) (fun s => Except.ok (PyVal.str s))
        else Except.ok (PyVal.list (x :: xs)))
        = Except.error (PyErr.attributeError "object has no attribute keys")
      rw [if_pos hcsv]
      cases x with
      | dict es => exact absurd hdict (by simp [PyVal.isDict])
      | str s => rfl
      | int n => rfl
      | list l2 => rfl
    rw [htr, exceptBindErr]
  · intro ctx sk tk up₀ v meta uy tn uymd hcontra
    unfold _save_worker at hcontra
    cases hval : _get_valid_user_path ctx.time_ns ctx.rand up₀ with
    | error e =>
      rw [hval, exceptBindErr] at hcontra
      injection hcontra with h'
      rw [get_valid_user_path_err ctx.time_ns ctx.rand up₀ e hval] at h'
      injection h' with h2
      exact inv_user_path_ne_json up₀ h2
    | ok up' =>
      rw [hval, exceptBindOk] at hcontra
      cases htr : transcodeStep (pySplitext up').2 v with
      | error e =>
        rw [htr, exceptBindErr] at hcontra
        injection hcontra with h'
        obtain ⟨m, hm⟩ := transcodeStep_err (pySplitext up').2 v e htr
        rw [hm] at h'
        exact absurd h' (by simp)
      | ok tv =>
        rw [htr, exceptBindOk] at hcontra
        cases hmu : _upgrade_meta ctx sk meta
            (optRender (_get_warehouse_full_path ctx.self_table_name sk
              (_get_table_name ctx.self_table_name tn) up' tk (resolvedYmd ctx uy uymd) false))
            (_get_table_name ctx.self_table_name tn) with
        | error e =>
          rw [hmu, exceptBindErr] at hcontra
          injection hcontra with h'
          rw [upgrade_meta_err ctx sk meta _ _ e hmu] at h'
          injection h' with h2
          exact inv_store_kind_ne_json sk h2
        | ok M =>
          rw [hmu, exceptBindOk] at hcontra
          by_cases hsk : sk = "raw"
          · rw [if_pos hsk] at hcontra
            exact absurd hcontra (by simp)
          · rw [if_neg hsk] at hcontra
            by_cases hsk2 : sk = "discovery"
            · rw [if_pos hsk2] at hcontra
              exact absurd hcontra (by simp)
            · rw [if_neg hsk2] at hcontra
              injection hcontra with h'
              injection h' with h2
              exact inv_store_kind2_ne_json sk h2
  · intro ctx sk tk up₀ v meta uy tn uymd eff hguard hok
    obtain ⟨up', tv, M, hval, htr, hmu, hcase⟩ :=
      save_ok_cases ctx sk tk up₀ v meta uy tn uymd eff hok
    have hn : normUP ctx up₀ = up' := by unfold normUP; rw [hval]
    have hskip : transcodeStep (pySplitext up').2 v = .ok v := by
      apply transcodeStep_skip
      rcases hguard with hg | hg
      · exact Or.inl hg
      · rw [hn] at hg
        exact Or.inr hg
    rw [hskip] at htr
    injection htr with htv
    rcases hcase with ⟨hsk, rfl⟩ | ⟨hsk, rfl⟩ <;> simp [savedPayload, ← htv]

/-- C10 witness: saving `[1]` to `f.csv` crashes with the keys
`AttributeError`; the must-be-list `ValueError` does not surface for a
concrete save; a plain string save writes its payload unchanged. -/
theorem C10_witness :
    _save_worker ctx0 "raw" "general" "f.csv" (.list [.int 1]) [] true "" ""
      = .error (.attributeError "object has no attribute keys")
    ∧ _save_worker ctx0 "raw" "general" "p.txt" (.str "hello") [] true "" ""
        ≠ .error (.valueError "json data type must be list.")
    ∧ savedPayload effRaw = some (.str "hello") := by
  refine ⟨?_, ?_, ?_⟩
  · exact C10_csv_transcode_guard.1 ctx0 "raw" "general" "f.csv" (.int 1) [] [] true "" ""
      "f.csv" rfl rfl rfl
  · exact C10_csv_transcode_guard.2.1 ctx0 "raw" "general" "p.txt" (.str "hello") [] true "" ""
  · exact C10_csv_transcode_guard.2.2 ctx0 "raw" "general" "p.txt" (.str "hello") [] true "" ""
      effRaw (Or.inl rfl) rfl

end DataWarehouse
